import Mathlib

/-!
Verification of the video-retrieval pipeline
(`youtube_batch_downloader.py`, `youtube_excel_downloader.py`, `vtt_to_txt.py`)
against its natural-language specification.

The Python sources are shallowly embedded: pure fragments become Lean
functions over `String`/`List`/`Nat`, the filesystem becomes an explicit list
of file names present in the output directory, and the external download
agent becomes an oracle parameter giving its exit status per invocation.
-/

namespace VideoRetrieval

/-! ## String helpers (Python semantics)

`pySubstr needle haystack` is Python's `needle in haystack` on strings,
i.e. contiguous-substring containment, modelled on the character lists. -/

def pySubstr (needle : List Char) : List Char → Bool
  | [] => needle.isEmpty
  | c :: rest => needle.isPrefixOf (c :: rest) || pySubstr needle rest

/-- Python `s.lower()`: lowercase character by character. -/
def pyLower (s : String) : String := ⟨s.data.map Char.toLower⟩

/-- Python `s.strip()`: drop leading and trailing whitespace. -/
def pyStrip (s : String) : String :=
  ⟨((s.data.dropWhile Char.isWhitespace).reverse.dropWhile Char.isWhitespace).reverse⟩

/-- Case-insensitive substring containment: `kw.lower() in text.lower()`. -/
def containsSub (kw text : String) : Bool :=
  pySubstr (pyLower kw).data (pyLower text).data

/-- Helper for `pySplit`: the accumulator holds the current token reversed. -/
def wsSplitAux (acc : List Char) : List Char → List String
  | [] => if acc.isEmpty then [] else [⟨acc.reverse⟩]
  | c :: rest =>
    if c.isWhitespace then
      if acc.isEmpty then wsSplitAux [] rest
      else ⟨acc.reverse⟩ :: wsSplitAux [] rest
    else wsSplitAux (c :: acc) rest

/-- Python `s.split()`: split on whitespace runs, dropping empty pieces. -/
def pySplit (s : String) : List String :=
  wsSplitAux [] s.data

/-- Python `a <= b` on strings: lexicographic comparison by code point. -/
def pyStrLe : List Char → List Char → Bool
  | [], _ => true
  | _ :: _, [] => false
  | a :: as, b :: bs => if a < b then true else if a = b then pyStrLe as bs else false

/-- Python `s.isdigit()` (restricted to ASCII digits): nonempty and all digits. -/
def pyIsDigit (s : String) : Bool :=
  !s.data.isEmpty && s.data.all Char.isDigit

/-! ## youtube_batch_downloader.py — filter configuration (lines 29-61) -/

def TITLE_MUST_CONTAIN : List String :=
  ["Hong Kong", "hong kong", "HK", "hk", "香港", "🇭🇰"]

def TITLE_EXCLUDE_KEYWORDS : List String :=
  ["Full review", "full review", "Apartment", "apartment", "Cage", "cage"]

def POLITICAL_KEYWORDS : List String :=
  ["protest", "demonstration", "riot", "march", "rally",
   "umbrella", "占中", "雨伞",
   "politics", "political", "election", "vote",
   "日軍", "侵港", "占領", "日军", "日本军", "sars",
   "independence", "independenc", "autonomy",
   "freedom", "democracy", "human rights abuse",
   "BBC News 中文", "RTHK"]

def MIN_DURATION_SECONDS : Nat := 4 * 60

/-! ## Keyword Filter (`_contains_keyword`, `_is_excluded`, `_is_valid_title`,
lines 85-111).  The source functions close over the module-level term lists;
they are embedded with the term lists as parameters, instantiated with the
constants above where a claim is about the concrete configuration. -/

/-- `_contains_keyword`: text contains any keyword, case-insensitively. -/
def contains_keyword (text : String) (keywords : List String) : Bool :=
  keywords.any (fun kw => containsSub kw text)

/-- `_is_excluded`: title contains an exclude keyword or a sensitive keyword. -/
def is_excluded (title : String) (excludeKws sensitiveKws : List String) : Bool :=
  contains_keyword title excludeKws || contains_keyword title sensitiveKws

/-- `_is_valid_title`: not excluded, and contains a must-contain keyword.
The source returns `False` when excluded, then `True` iff a must-contain
keyword occurs. -/
def is_valid_title (title : String) (mustKws excludeKws sensitiveKws : List String) : Bool :=
  !(is_excluded title excludeKws sensitiveKws) && contains_keyword title mustKws

/-! ## Duplicate Detector (`__init__` load loop lines 76-83, `_is_duplicate`
lines 113-124) -/

/-- Normalisation used on both sides of the duplicate check: `lower().strip()`. -/
def normalizeTitle (s : String) : String := pyStrip (pyLower s)

/-- Loading the exclusion set: each already-downloaded file stem is
normalised (`mp4.stem.lower().strip()`) before insertion. -/
def load_exclude_titles (stems : List String) : List String :=
  stems.map normalizeTitle

/-- `len(set(a.split()) & set(b.split()))`: number of distinct whitespace
tokens the two strings share. -/
def commonTokenCount (a b : String) : Nat :=
  (((pySplit a).dedup).filter (fun w => decide (w ∈ pySplit b))).length

/-- `_is_duplicate`: some known title and the normalised candidate both
exceed 20 characters and share at least 3 tokens. -/
def is_duplicate (title : String) (exclude_titles : List String) : Bool :=
  let normalized_title := pyStrip (pyLower title)
  exclude_titles.any (fun downloaded =>
    if normalized_title.length > 20 && downloaded.length > 20 then
      decide (3 ≤ commonTokenCount normalized_title downloaded)
    else false)

/-! ## Candidate record (fields of the dicts built in `search_videos`,
lines 370-378) -/

structure Video where
  id : String
  title : String
  uploader : String
  /-- `video.get('duration', 0) or 0` collapses a missing/None duration to 0. -/
  duration : Nat
  upload_time : String
deriving DecidableEq

end VideoRetrieval

namespace VideoRetrieval

/-! ## Filter pipeline (`_filter_videos`, lines 126-179): per candidate the
checks run in source order — duplicate, then political terms on title or
uploader, then title validity, then minimum duration — and the first failing
check both stops the pipeline (`continue`) and increments its counter. -/

inductive RejectReason where
  | duplicate
  | political
  | titleMismatch
  | tooShort
deriving DecidableEq

/-- The per-candidate classification of `_filter_videos`: `Option.none` means the
candidate survives; `some r` names the single counter that is incremented. -/
def classify_video (v : Video) (exclude_titles : List String) : Option RejectReason :=
  if is_duplicate v.title exclude_titles then some .duplicate
  else if contains_keyword v.title POLITICAL_KEYWORDS
       || contains_keyword v.uploader POLITICAL_KEYWORDS then some .political
  else if !(is_valid_title v.title TITLE_MUST_CONTAIN TITLE_EXCLUDE_KEYWORDS POLITICAL_KEYWORDS)
       then some .titleMismatch
  else if v.duration < MIN_DURATION_SECONDS then some .tooShort
  else none

/-- The survivors of `_filter_videos`, in input order. -/
def filter_videos (videos : List Video) (exclude_titles : List String) : List Video :=
  videos.filter (fun v => (classify_video v exclude_titles).isNone)

/-- Claim-side pipeline, written from the claim's words for comparison with
`classify_video`: the second-priority check rejects on a sensitive OR
excluded term occurring in the title OR the uploader, and the third check is
the must-contain check alone. -/
def classify_claim (v : Video) (exclude_titles : List String) : Option RejectReason :=
  if is_duplicate v.title exclude_titles then some .duplicate
  else if contains_keyword v.title POLITICAL_KEYWORDS
       || contains_keyword v.uploader POLITICAL_KEYWORDS
       || contains_keyword v.title TITLE_EXCLUDE_KEYWORDS
       || contains_keyword v.uploader TITLE_EXCLUDE_KEYWORDS then some .political
  else if !(contains_keyword v.title TITLE_MUST_CONTAIN) then some .titleMismatch
  else if v.duration < MIN_DURATION_SECONDS then some .tooShort
  else none

end VideoRetrieval

namespace VideoRetrieval

/-- C1: the keyword filter accepts a title iff it contains at least one
must-contain term and no exclude or sensitive term (case-insensitive
substring matching, any list member sufficing), and the verdict is invariant
under permuting any of the three term lists. -/
theorem keyword_filter_acceptance :
    (∀ (t : String) (must excl sens : List String),
      is_valid_title t must excl sens = true ↔
        ((∃ kw ∈ must, containsSub kw t = true) ∧
         ∀ kw ∈ excl ++ sens, containsSub kw t = false)) ∧
    (∀ (t : String) (m₁ m₂ e₁ e₂ s₁ s₂ : List String),
      m₁.Perm m₂ → e₁.Perm e₂ → s₁.Perm s₂ →
      is_valid_title t m₁ e₁ s₁ = is_valid_title t m₂ e₂ s₂) := by
  have hchar : ∀ (t : String) (must excl sens : List String),
      is_valid_title t must excl sens = true ↔
        ((∃ kw ∈ must, containsSub kw t = true) ∧
         ∀ kw ∈ excl ++ sens, containsSub kw t = false) := by
    intro t must excl sens
    simp only [is_valid_title, is_excluded, contains_keyword, Bool.and_eq_true,
      Bool.not_eq_true', Bool.or_eq_false_iff, List.any_eq_false, List.any_eq_true,
      List.mem_append, Bool.not_eq_true]
    constructor
    · rintro ⟨⟨hex, hsen⟩, kw, hkw, hmatch⟩
      exact ⟨⟨kw, hkw, hmatch⟩, fun kw hkw => hkw.elim (hex kw) (hsen kw)⟩
    · rintro ⟨⟨kw, hkw, hmatch⟩, hnone⟩
      exact ⟨⟨fun kw hkw => hnone kw (Or.inl hkw), fun kw hkw => hnone kw (Or.inr hkw)⟩,
        kw, hkw, hmatch⟩
  refine ⟨hchar, ?_⟩
  intro t m₁ m₂ e₁ e₂ s₁ s₂ hm he hs
  rw [Bool.eq_iff_iff, hchar, hchar]
  constructor
  · rintro ⟨⟨kw, hkw, hmatch⟩, hnone⟩
    exact ⟨⟨kw, hm.mem_iff.mp hkw, hmatch⟩, fun kw hkw => hnone kw (by
      rcases List.mem_append.mp hkw with h | h
      · exact List.mem_append.mpr (Or.inl (he.mem_iff.mpr h))
      · exact List.mem_append.mpr (Or.inr (hs.mem_iff.mpr h)))⟩
  · rintro ⟨⟨kw, hkw, hmatch⟩, hnone⟩
    exact ⟨⟨kw, hm.mem_iff.mpr hkw, hmatch⟩, fun kw hkw => hnone kw (by
      rcases List.mem_append.mp hkw with h | h
      · exact List.mem_append.mpr (Or.inl (he.mem_iff.mp h))
      · exact List.mem_append.mpr (Or.inr (hs.mem_iff.mp h)))⟩

/-- C1 witness: the permutation-invariance part applied at a concrete title
and concrete permuted term lists. -/
theorem keyword_filter_acceptance_witness :
    is_valid_title "Hong Kong night walk" ["HK", "香港"] ["Cage", "Apartment"] ["protest"]
      = is_valid_title "Hong Kong night walk" ["香港", "HK"] ["Apartment", "Cage"] ["protest"] :=
  keyword_filter_acceptance.2 "Hong Kong night walk" _ _ _ _ _ _
    (List.Perm.swap "香港" "HK" []) (List.Perm.swap "Apartment" "Cage" []) (List.Perm.refl _)

/-- C5: a candidate is flagged duplicate iff some known title is such that
both normalised strings exceed 20 characters and their token sets share at
least 3 words; a candidate whose normalised title has at most 20 characters
is never flagged. -/
theorem duplicate_heuristic :
    (∀ (title : String) (stems : List String),
      is_duplicate title (load_exclude_titles stems) = true ↔
        ∃ st ∈ stems, 20 < (normalizeTitle title).length ∧ 20 < (normalizeTitle st).length ∧
          3 ≤ commonTokenCount (normalizeTitle title) (normalizeTitle st)) ∧
    (∀ (title : String) (known : List String),
      (normalizeTitle title).length ≤ 20 → is_duplicate title known = false) := by
  constructor
  · intro title stems
    simp only [is_duplicate, load_exclude_titles, List.any_eq_true, List.mem_map]
    constructor
    · rintro ⟨d, ⟨st, hst, rfl⟩, hd⟩
      refine ⟨st, hst, ?_⟩
      split_ifs at hd with hc
      simp only [normalizeTitle, Bool.and_eq_true, decide_eq_true_eq] at hc hd ⊢
      exact ⟨hc.1, hc.2, hd⟩
    · rintro ⟨st, hst, h1, h2, h3⟩
      refine ⟨normalizeTitle st, ⟨st, hst, rfl⟩, ?_⟩
      have hc : (decide ((pyStrip (pyLower title)).length > 20)
          && decide ((normalizeTitle st).length > 20)) = true := by
        simp only [normalizeTitle] at h1 h2
        simp [normalizeTitle, h1, h2]
      rw [if_pos hc]
      simpa [normalizeTitle] using h3
  · intro title known h
    simp only [is_duplicate, List.any_eq_false]
    intro d _
    split_ifs with hc
    · intro hcontra
      simp only [Bool.and_eq_true, decide_eq_true_eq] at hc
      exact absurd hc.1 (by simpa [normalizeTitle] using Nat.not_lt.mpr h)
    · simp

/-- C5 witness: a short title (9 normalised characters) is not flagged
duplicate even against a long known title. -/
theorem duplicate_heuristic_witness :
    is_duplicate "Hong Kong" ["hong kong hidden markets tour full episode 2023"] = false :=
  duplicate_heuristic.2 "Hong Kong" ["hong kong hidden markets tour full episode 2023"]
    (by decide)

/-- C3 counterexample: the claim places an excluded-term check over the
title OR the uploader at the second pipeline stage, but the code checks
only sensitive (political) terms there and checks exclude terms on the
title alone, inside the later title-validity stage.  A candidate whose
uploader contains the exclude term "apartment" (with a compliant title) is
accepted by the code while the claim's pipeline rejects it at stage two. -/
theorem filter_pipeline_counterexample :
    classify_video
        { id := "c3", title := "Hong Kong walking tour", uploader := "apartment living",
          duration := 300, upload_time := "" } [] = Option.none ∧
    classify_claim
        { id := "c3", title := "Hong Kong walking tour", uploader := "apartment living",
          duration := 300, upload_time := "" } [] = some RejectReason.political ∧
    contains_keyword "apartment living" TITLE_EXCLUDE_KEYWORDS = true := by
  decide

/-- C3 (amended): per candidate the checks run in the fixed order
duplicate → sensitive-term (on title or uploader) → title-validity
(exclude terms and must-contain terms, on the title only) → minimum
duration (≥ 240 s), short-circuiting on the first failing check, and per
rejected candidate exactly one rejection counter is incremented, the one
of that first failing check. -/
theorem filter_pipeline_order :
    (∀ (v : Video) (excl : List String),
      (classify_video v excl = some RejectReason.duplicate ↔
        is_duplicate v.title excl = true) ∧
      (classify_video v excl = some RejectReason.political ↔
        is_duplicate v.title excl = false ∧
        (contains_keyword v.title POLITICAL_KEYWORDS = true ∨
         contains_keyword v.uploader POLITICAL_KEYWORDS = true)) ∧
      (classify_video v excl = some RejectReason.titleMismatch ↔
        is_duplicate v.title excl = false ∧
        contains_keyword v.title POLITICAL_KEYWORDS = false ∧
        contains_keyword v.uploader POLITICAL_KEYWORDS = false ∧
        is_valid_title v.title TITLE_MUST_CONTAIN TITLE_EXCLUDE_KEYWORDS POLITICAL_KEYWORDS
          = false) ∧
      (classify_video v excl = some RejectReason.tooShort ↔
        is_duplicate v.title excl = false ∧
        contains_keyword v.title POLITICAL_KEYWORDS = false ∧
        contains_keyword v.uploader POLITICAL_KEYWORDS = false ∧
        is_valid_title v.title TITLE_MUST_CONTAIN TITLE_EXCLUDE_KEYWORDS POLITICAL_KEYWORDS
          = true ∧
        v.duration < MIN_DURATION_SECONDS) ∧
      (classify_video v excl = Option.none ↔
        is_duplicate v.title excl = false ∧
        contains_keyword v.title POLITICAL_KEYWORDS = false ∧
        contains_keyword v.uploader POLITICAL_KEYWORDS = false ∧
        is_valid_title v.title TITLE_MUST_CONTAIN TITLE_EXCLUDE_KEYWORDS POLITICAL_KEYWORDS
          = true ∧
        MIN_DURATION_SECONDS ≤ v.duration)) ∧
    (∀ (videos : List Video) (excl : List String),
      videos.countP (fun v => decide (classify_video v excl = some RejectReason.duplicate)) +
      videos.countP (fun v => decide (classify_video v excl = some RejectReason.political)) +
      videos.countP (fun v => decide (classify_video v excl = some RejectReason.titleMismatch)) +
      videos.countP (fun v => decide (classify_video v excl = some RejectReason.tooShort)) +
      (filter_videos videos excl).length = videos.length) := by
  constructor
  · intro v excl
    unfold classify_video
    (split_ifs with h1 h2 h3 h4 <;>
      simp_all [Bool.not_eq_true, not_or, Nat.not_lt]) ;
      (refine ⟨fun hf1 hf2 => ?_, fun hf1 hf2 hf3 => ?_, fun hf1 hf2 hf3 => ?_⟩ <;>
        rcases h2 with h2 | h2 <;> simp_all)
  · intro videos excl
    induction videos with
    | nil => simp [filter_videos]
    | cons v vs ih =>
      rcases hv : classify_video v excl with _ | r
      · simp only [List.countP_cons, filter_videos, List.filter_cons, hv] at ih ⊢
        simp only [Option.isNone_none, decide_eq_true_eq, if_true, List.length_cons]
        simp
        omega
      · cases r <;>
          (simp only [List.countP_cons, filter_videos, List.filter_cons, hv] at ih ⊢ ;
           simp ; omega)

end VideoRetrieval

namespace VideoRetrieval

/-! ## youtube_excel_downloader.py — configuration and platform detection
(lines 28-46) -/

def SEGMENT_THRESHOLD_SECONDS : Nat := 30 * 60

def SEGMENT_DURATION_SECONDS : Nat := 10 * 60

/-- `get_url_platform`: platform derived from URL shape. -/
def get_url_platform (url : String) : String :=
  let url_str := (pyLower url).data
  if pySubstr "youtube.com".data url_str || pySubstr "youtu.be".data url_str then "youtube"
  else if pySubstr "bilibili.com".data url_str then "bilibili"
  else if pySubstr "rthk.hk".data url_str then "rthk"
  else "other"

/-- Python `f"{n:0wd}"` for natural `n`: decimal digits left-padded with zeros. -/
def padNum (width n : Nat) : String :=
  let s := toString n
  ⟨List.replicate (width - s.length) '0'⟩ ++ s

/-! ## parse_duration (lines 49-80).  The Python argument is dynamically
typed; the possible runtime types of an Excel duration cell are modelled as
an inductive. -/

inductive DurationCell where
  | null
  | datetime (hour minute second : Nat)
  | timedelta (total_seconds : Int)
  | num (n : Int)
  | str (s : String)

/-- Digits-to-number, `int("...")` on a nonempty digit string. -/
def natOfDigits (cs : List Char) : Nat :=
  cs.foldl (fun acc c => acc * 10 + (c.toNat - 48)) 0

/-- Try `(\d+)\s*mins?` (IGNORECASE) anchored at the head of `cs`:
a maximal digit run, optional whitespace, then `min`.  Backtracking cannot
give any other division, so the greedy runs are exact. -/
def matchMinsAt (cs : List Char) : Option Nat :=
  let digits := cs.takeWhile Char.isDigit
  if digits.isEmpty then Option.none
  else
    match (cs.dropWhile Char.isDigit).dropWhile Char.isWhitespace with
    | c1 :: c2 :: c3 :: _ =>
      if c1.toLower = 'm' ∧ c2.toLower = 'i' ∧ c3.toLower = 'n' then some (natOfDigits digits)
      else Option.none
    | _ => Option.none

/-- `re.search` of the mins pattern: leftmost match over all start positions. -/
def searchMins : List Char → Option Nat
  | [] => Option.none
  | c :: cs =>
    match matchMinsAt (c :: cs) with
    | some n => some n
    | Option.none => searchMins cs

/-- Try `(\d+):(\d+)` anchored at the head of `cs`. -/
def matchTimeAt (cs : List Char) : Option (Nat × Nat) :=
  let d1 := cs.takeWhile Char.isDigit
  if d1.isEmpty then Option.none
  else
    match cs.dropWhile Char.isDigit with
    | ':' :: rest =>
      let d2 := rest.takeWhile Char.isDigit
      if d2.isEmpty then Option.none
      else some (natOfDigits d1, natOfDigits d2)
    | _ => Option.none

/-- `re.search` of the minutes:seconds pattern: leftmost match. -/
def searchTime : List Char → Option (Nat × Nat)
  | [] => Option.none
  | c :: cs =>
    match matchTimeAt (c :: cs) with
    | some r => some r
    | Option.none => searchTime cs

/-- `parse_duration`: total over every runtime type of the cell; unmatched
strings and `None` give 0. -/
def parse_duration : DurationCell → Int
  | .null => 0
  | .datetime h m s => h * 3600 + m * 60 + s
  | .timedelta t => t
  | .num n => n
  | .str s =>
    match searchMins s.data with
    | some n => (n : Int) * 60
    | Option.none =>
      match searchTime s.data with
      | some (m, sec) => (m : Int) * 60 + sec
      | Option.none => 0

/-! ## Download dispatch (`download_video_segment`, lines 99-187).
The output directory is modelled as the list of file names it contains and
the external agent as a boolean oracle (exit status of the `yt-dlp` call);
on a successful fetch the agent writes the artifact. -/

inductive DispatchOutcome where
  | skippedExisting
  | fetched (ok : Bool)
deriving DecidableEq

structure DispatchResult where
  /-- The boolean the Python function returns. -/
  ok : Bool
  outcome : DispatchOutcome
  agent_calls : Nat
  /-- Directory contents after the call. -/
  fs : List String
deriving DecidableEq

/-- `download_video_segment`: skip without invoking the agent when
`output_name.mp4` already exists, else invoke the agent once. -/
def download_video_segment (fs : List String) (output_name : String) (agent_ok : Bool) :
    DispatchResult :=
  let artifact := output_name ++ ".mp4"
  if artifact ∈ fs then ⟨true, .skippedExisting, 0, fs⟩
  else if agent_ok then ⟨true, .fetched true, 1, artifact :: fs⟩
  else ⟨false, .fetched false, 1, fs⟩

/-! ## Segmentation and per-video processing (`process_video`,
lines 190-252) -/

/-- `(duration_seconds + SEGMENT_DURATION_SECONDS - 1) // SEGMENT_DURATION_SECONDS`. -/
def num_segments (duration_seconds : Nat) : Nat :=
  (duration_seconds + SEGMENT_DURATION_SECONDS - 1) / SEGMENT_DURATION_SECONDS

def seg_start (seg_idx : Nat) : Nat := seg_idx * SEGMENT_DURATION_SECONDS

def seg_end (seg_idx duration_seconds : Nat) : Nat :=
  min ((seg_idx + 1) * SEGMENT_DURATION_SECONDS) duration_seconds

/-- Segment name `001_01`, `001_02`, …: 1-indexed two-digit suffix. -/
def seg_name (video_id_str : String) (seg_idx : Nat) : String :=
  video_id_str ++ "_" ++ padNum 2 (seg_idx + 1)

/-- The plan implicit in `process_video`: a YouTube video longer than the
threshold is split into `num_segments` ranges; otherwise a single
open-ended unit (`Option.none`) covers the whole item. -/
def segment_plans (platform : String) (duration_seconds : Nat) : List (Option (Nat × Nat)) :=
  if platform = "youtube" ∧ duration_seconds > SEGMENT_THRESHOLD_SECONDS then
    (List.range (num_segments duration_seconds)).map
      (fun i => some (seg_start i, seg_end i duration_seconds))
  else [Option.none]

/-- `process_video`: segmented download for long YouTube videos (success iff
`success_count > 0`), single dispatch otherwise. -/
def process_video (platform : String) (duration_seconds : Nat) (fs : List String)
    (agent_ok : String → Bool) (video_no : Nat) : Bool :=
  let video_id_str := padNum 3 video_no
  if platform = "youtube" ∧ duration_seconds > SEGMENT_THRESHOLD_SECONDS then
    let n := num_segments duration_seconds
    let success_count := (List.range n).countP (fun i =>
      (download_video_segment fs (seg_name video_id_str i)
        (agent_ok (seg_name video_id_str i))).ok)
    decide (success_count > 0)
  else
    (download_video_segment fs video_id_str (agent_ok video_id_str)).ok

end VideoRetrieval

namespace VideoRetrieval

/-! ## Search enumeration (`search_videos` loop, lines 317-389): terms are
probed one at a time, each probe is one external search call, results are
deduplicated by video id, and the loop breaks once `max_results * 3` raw
candidates are gathered. -/

structure SearchState where
  all_videos : List Video
  seen_ids : List String
  calls : Nat
deriving DecidableEq

/-- Appending one probe's parsed results with id-based dedup (lines 345-380). -/
def ingest_results (st : SearchState) (entries : List Video) : SearchState :=
  entries.foldl (fun s v =>
    if v.id ∈ s.seen_ids then s
    else { s with all_videos := s.all_videos ++ [v], seen_ids := v.id :: s.seen_ids }) st

/-- The term loop with its early-exit bound (`break` at lines 321-322):
`fetch` is the external search agent, `calls` counts its invocations. -/
def search_loop (fetch : String → List Video) (max_results : Nat) :
    List String → SearchState → SearchState
  | [], st => st
  | term :: rest, st =>
    if st.all_videos.length ≥ max_results * 3 then st
    else search_loop fetch max_results rest
      (ingest_results { st with calls := st.calls + 1 } (fetch term))

/-! ## Upload-time extraction and the ranker (lines 355-398) -/

/-- Gregorian leap year, as `datetime` validates it. -/
def is_leap_year (y : Nat) : Bool := (y % 4 = 0 && y % 100 ≠ 0) || (y % 400 = 0)

def days_in_month (y m : Nat) : Nat :=
  if m = 2 then (if is_leap_year y then 29 else 28)
  else if m = 4 ∨ m = 6 ∨ m = 9 ∨ m = 11 then 30
  else 31

/-- `datetime.strptime(s, "%Y%m%d")`: eight digits forming a valid calendar
date, else failure. -/
def strptime_Ymd (s : String) : Option (Nat × Nat × Nat) :=
  if s.length = 8 ∧ s.data.all Char.isDigit then
    let y := natOfDigits (s.data.take 4)
    let m := natOfDigits ((s.data.drop 4).take 2)
    let d := natOfDigits (s.data.drop 6)
    if 1 ≤ y ∧ 1 ≤ m ∧ m ≤ 12 ∧ 1 ≤ d ∧ d ≤ days_in_month y m then some (y, m, d)
    else Option.none
  else Option.none

/-- Lines 357-365: a parseable `upload_date` is reformatted `YYYY-MM-DD`;
anything else (including the empty string) yields `""`. -/
def extract_upload_time (upload_date : String) : String :=
  match strptime_Ymd upload_date with
  | some (y, m, d) => padNum 4 y ++ "-" ++ padNum 2 m ++ "-" ++ padNum 2 d
  | Option.none => ""

/-- Sort key of line 395: Python string `<=` on the upload time. -/
def upload_le (a b : Video) : Prop :=
  pyStrLe a.upload_time.data b.upload_time.data = true

instance : DecidableRel upload_le := fun a b => by
  unfold upload_le; infer_instance

/-- Lines 392-398 after filtering: stable ascending sort by upload time,
then truncation to `max_results`. -/
def rank_select (survivors : List Video) (max_results : Nat) : List Video :=
  (List.insertionSort upload_le survivors).take max_results

end VideoRetrieval

namespace VideoRetrieval

/-! ## vtt_to_txt.py (`vtt_to_text`, lines 16-55) -/

/-- The fixed encoding fallback order (line 27). -/
def ENCODINGS : List String := ["utf-8", "utf-8-sig", "gbk", "gb2312", "latin1"]

/-- The decode loop (lines 30-35): each entry is the result of decoding the
file with the corresponding candidate encoding; the first success wins. -/
def try_encodings : List (Option String) → Option String
  | [] => Option.none
  | some c :: _ => some c
  | Option.none :: rest => try_encodings rest

/-- The line filter loop (lines 44-53): strip each line; drop empties, the
`WEBVTT` header, timestamp lines, and pure-digit cue identifiers. -/
def vtt_keep_lines : List String → List String
  | [] => []
  | line :: rest =>
    let l := pyStrip line
    if l.data.isEmpty || decide (l = "WEBVTT") || pySubstr "-->".data l.data then
      vtt_keep_lines rest
    else if pyIsDigit l then vtt_keep_lines rest
    else l :: vtt_keep_lines rest

/-- `vtt_to_text` on decoded content, given as its list of lines. -/
def vtt_to_text (lines : List String) : String :=
  String.intercalate "\n" (vtt_keep_lines lines)

/-- Claim-side single-pass drop predicate on a stripped line. -/
def dropped_stripped (l : String) : Bool :=
  l.data.isEmpty || decide (l = "WEBVTT") || pySubstr "-->".data l.data || pyIsDigit l

end VideoRetrieval

namespace VideoRetrieval

/-! ## Order-theoretic facts about the Python string comparison -/

theorem pyStrLe_total : ∀ as bs : List Char, pyStrLe as bs = true ∨ pyStrLe bs as = true := by
  intro as
  induction as with
  | nil => intro bs; left; rfl
  | cons a as ih =>
    intro bs
    cases bs with
    | nil => right; rfl
    | cons b bs =>
      rcases lt_trichotomy a b with h | h | h
      · left; simp [pyStrLe, h]
      · subst h
        rcases ih bs with h2 | h2
        · left; simp [pyStrLe, h2]
        · right; simp [pyStrLe, h2]
      · right; simp [pyStrLe, h]

theorem pyStrLe_trans : ∀ as bs cs : List Char,
    pyStrLe as bs = true → pyStrLe bs cs = true → pyStrLe as cs = true := by
  intro as
  induction as with
  | nil => intro bs cs _ _; rfl
  | cons a as ih =>
    intro bs cs h1 h2
    cases bs with
    | nil => simp [pyStrLe] at h1
    | cons b bs =>
      cases cs with
      | nil => simp [pyStrLe] at h2
      | cons c cs =>
        rcases lt_trichotomy a b with hab | hab | hab
        · rcases lt_trichotomy b c with hbc | hbc | hbc
          · simp [pyStrLe, lt_trans hab hbc]
          · subst hbc; simp [pyStrLe, hab]
          · simp [pyStrLe, lt_asymm hbc, ne_of_gt hbc] at h2
        · subst hab
          rcases lt_trichotomy a c with hbc | hbc | hbc
          · simp [pyStrLe, hbc]
          · subst hbc
            simp [pyStrLe] at h1 h2 ⊢
            exact ih bs cs h1 h2
          · simp [pyStrLe, lt_asymm hbc, ne_of_gt hbc] at h2
        · simp [pyStrLe, lt_asymm hab, ne_of_gt hab] at h1

instance : IsTotal Video upload_le := ⟨fun _ _ => pyStrLe_total _ _⟩

instance : IsTrans Video upload_le := ⟨fun _ _ _ => pyStrLe_trans _ _ _⟩

/-- C6: the ranker output is the survivors sorted ascending by the
upload-time string key then truncated to `max_results`; a candidate with an
empty upload time sorts below every candidate; an upload date that fails to
parse carries the empty string; the worked ordering example of the spec. -/
theorem ranker_order_truncate :
    (∀ (survivors : List Video) (max_results : Nat),
      ∃ l : List Video, l.Perm survivors ∧ l.Sorted upload_le ∧
        rank_select survivors max_results = l.take max_results) ∧
    (∀ v w : Video, v.upload_time = "" → upload_le v w) ∧
    (∀ raw : String, strptime_Ymd raw = Option.none → extract_upload_time raw = "") ∧
    ((rank_select
        [⟨"a", "t", "u", 300, "2021-05-01"⟩, ⟨"b", "t", "u", 300, ""⟩,
         ⟨"c", "t", "u", 300, "2019-02-02"⟩] 100).map Video.upload_time
      = ["", "2019-02-02", "2021-05-01"]) := by
  refine ⟨?_, ?_, ?_, by decide⟩
  · intro survivors max_results
    exact ⟨List.insertionSort upload_le survivors,
      List.perm_insertionSort upload_le survivors,
      List.sorted_insertionSort upload_le survivors, rfl⟩
  · intro v w hv
    unfold upload_le
    rw [hv]
    rfl
  · intro raw h
    unfold extract_upload_time
    rw [h]

/-- C6 witness: an unparseable upload date (not eight digits) yields the
empty sort key. -/
theorem ranker_order_truncate_witness :
    extract_upload_time "garbage!" = "" :=
  ranker_order_truncate.2.2.1 "garbage!" (by decide)

/-- C2: for a YouTube (range-fetch-capable) item longer than the threshold
the planner emits exactly `ceil(duration / chunk)` segments, segment `i`
being `[i*chunk, min((i+1)*chunk, duration))`, contiguous and covering
`[0, duration)` exactly once with the last end clamped to `duration`;
otherwise a single whole-item unit is emitted.  Thresholds: 1800 s and
600 s. -/
theorem segmentation_plan :
    SEGMENT_THRESHOLD_SECONDS = 1800 ∧ SEGMENT_DURATION_SECONDS = 600 ∧
    (∀ d : Nat, d > SEGMENT_THRESHOLD_SECONDS →
      (segment_plans "youtube" d).length = num_segments d ∧
      (num_segments d - 1) * SEGMENT_DURATION_SECONDS < d ∧
      d ≤ num_segments d * SEGMENT_DURATION_SECONDS ∧
      (∀ i : Nat, i < num_segments d →
        (segment_plans "youtube" d)[i]? =
          some (some (seg_start i, seg_end i d))) ∧
      seg_start 0 = 0 ∧
      (∀ i : Nat, i + 1 < num_segments d → seg_end i d = seg_start (i + 1)) ∧
      seg_end (num_segments d - 1) d = d ∧
      (∀ t : Nat, t < d → ∃! i : Nat, i < num_segments d ∧ seg_start i ≤ t ∧ t < seg_end i d)) ∧
    (∀ (platform : String) (d : Nat),
      platform ≠ "youtube" ∨ d ≤ SEGMENT_THRESHOLD_SECONDS →
      segment_plans platform d = [Option.none]) := by
  have h600 : SEGMENT_DURATION_SECONDS = 600 := rfl
  have h1800 : SEGMENT_THRESHOLD_SECONDS = 1800 := rfl
  refine ⟨rfl, rfl, ?_, ?_⟩
  · intro d hd
    rw [h1800] at hd
    have hplans : segment_plans "youtube" d =
        (List.range (num_segments d)).map (fun i => some (seg_start i, seg_end i d)) := by
      simp [segment_plans, h1800.symm ▸ hd]
    refine ⟨by rw [hplans]; simp, ?_, ?_, ?_, rfl, ?_, ?_, ?_⟩
    · simp only [num_segments, h600]; omega
    · simp only [num_segments, h600]; omega
    · intro i hi
      rw [hplans]
      simp [List.getElem?_map, List.getElem?_range, hi]
    · intro i hi
      simp only [num_segments, h600] at hi
      simp only [seg_end, seg_start, h600]
      omega
    · simp only [num_segments, seg_end, h600]
      omega
    · intro t ht
      refine ⟨t / 600, ⟨?_, ?_, ?_⟩, ?_⟩
      · simp only [num_segments, h600]; omega
      · simp only [seg_start, h600]; omega
      · simp only [seg_end, h600]; omega
      · rintro j ⟨hj1, hj2, hj3⟩
        simp only [num_segments, seg_start, seg_end, h600] at hj1 hj2 hj3
        omega
  · intro platform d h
    simp only [segment_plans]
    rw [if_neg]
    rintro ⟨hp, hdur⟩
    rcases h with h | h
    · exact h hp
    · rw [h1800] at h; rw [h1800] at hdur; omega

/-- C2 witness: duration 2150 s on YouTube yields four segments, and a
non-range-capable platform yields the single whole-item unit. -/
theorem segmentation_plan_witness :
    (segment_plans "youtube" 2150).length = 4 ∧
    segment_plans "rthk" 2150 = [Option.none] := by
  constructor
  · have h := (segmentation_plan.2.2.1 2150 (by decide)).1
    rw [h]
    decide
  · exact segmentation_plan.2.2.2 "rthk" 2150 (Or.inl (by decide))

/-- C4: dispatching a unit whose artifact already exists yields the
skipped-existing outcome with zero agent calls and an unchanged directory;
consequently dispatching again after any successful dispatch is a skip that
changes nothing. -/
theorem skip_if_exists_idempotent :
    (∀ (fs : List String) (output_name : String) (agent_ok : Bool),
      (output_name ++ ".mp4") ∈ fs →
        download_video_segment fs output_name agent_ok =
          ⟨true, DispatchOutcome.skippedExisting, 0, fs⟩) ∧
    (∀ (fs : List String) (output_name : String) (a₁ a₂ : Bool),
      (download_video_segment fs output_name a₁).ok = true →
        download_video_segment (download_video_segment fs output_name a₁).fs
            output_name a₂ =
          ⟨true, DispatchOutcome.skippedExisting, 0,
            (download_video_segment fs output_name a₁).fs⟩) := by
  have hskip : ∀ (fs : List String) (output_name : String) (agent_ok : Bool),
      (output_name ++ ".mp4") ∈ fs →
        download_video_segment fs output_name agent_ok =
          ⟨true, DispatchOutcome.skippedExisting, 0, fs⟩ := by
    intro fs output_name agent_ok h
    simp [download_video_segment, h]
  refine ⟨hskip, ?_⟩
  intro fs output_name a₁ a₂ hok
  by_cases h : (output_name ++ ".mp4") ∈ fs
  · rw [hskip fs output_name a₁ h]
    exact hskip fs output_name a₂ h
  · cases ha : a₁ with
    | false =>
      rw [ha] at hok
      simp [download_video_segment, h] at hok
    | true =>
      have hfs : (download_video_segment fs output_name true).fs
          = (output_name ++ ".mp4") :: fs := by
        simp [download_video_segment, h]
      rw [hfs]
      exact hskip _ output_name a₂ (List.mem_cons_self _ _)

/-- C4 witness: an already-present artifact is skipped with no agent call
and an unchanged directory. -/
theorem skip_if_exists_idempotent_witness :
    download_video_segment ["005.mp4"] "005" false =
      ⟨true, DispatchOutcome.skippedExisting, 0, ["005.mp4"]⟩ :=
  skip_if_exists_idempotent.1 ["005.mp4"] "005" false (by decide)

/-- C7: a segmented candidate is reported successful iff at least one of
its segment dispatches returned success; with zero successful segments it
is reported failed. -/
theorem segment_outcome_aggregation :
    ∀ (d : Nat) (fs : List String) (agent_ok : String → Bool) (video_no : Nat),
      d > SEGMENT_THRESHOLD_SECONDS →
      (process_video "youtube" d fs agent_ok video_no = true ↔
        ∃ i < num_segments d,
          (download_video_segment fs (seg_name (padNum 3 video_no) i)
            (agent_ok (seg_name (padNum 3 video_no) i))).ok = true) ∧
      ((∀ i < num_segments d,
          (download_video_segment fs (seg_name (padNum 3 video_no) i)
            (agent_ok (seg_name (padNum 3 video_no) i))).ok = false) →
        process_video "youtube" d fs agent_ok video_no = false) := by
  intro d fs agent_ok video_no hd
  have hiff : process_video "youtube" d fs agent_ok video_no = true ↔
      ∃ i < num_segments d,
        (download_video_segment fs (seg_name (padNum 3 video_no) i)
          (agent_ok (seg_name (padNum 3 video_no) i))).ok = true := by
    unfold process_video
    rw [if_pos ⟨rfl, hd⟩]
    simp only [decide_eq_true_eq, gt_iff_lt, List.countP_pos_iff, List.mem_range]
  refine ⟨hiff, fun hall => ?_⟩
  rw [Bool.eq_false_iff]
  intro htrue
  rcases hiff.mp htrue with ⟨i, hi, hok⟩
  rw [hall i hi] at hok
  exact Bool.false_ne_true hok

/-- C7 witness: with duration 2150 s, an agent that always fails, and the
second segment's artifact already on disk, the candidate is still reported
successful (one of four segments succeeded). -/
theorem segment_outcome_aggregation_witness :
    process_video "youtube" 2150 ["001_02.mp4"] (fun _ => false) 1 = true :=
  ((segment_outcome_aggregation 2150 ["001_02.mp4"] (fun _ => false) 1 (by decide)).1).mpr
    ⟨1, by decide, by decide⟩

/-- C8: once the gathered raw candidates reach three times the requested
final count, the search loop stops: no further search-term call is issued
and the state is unchanged. -/
theorem search_early_exit :
    ∀ (fetch : String → List Video) (max_results : Nat) (terms : List String)
      (st : SearchState),
      st.all_videos.length ≥ max_results * 3 →
      search_loop fetch max_results terms st = st := by
  intro fetch max_results terms st h
  cases terms with
  | nil => rfl
  | cons t rest => simp [search_loop, h]

/-- C8 witness: a state already holding 3 = 3×1 candidates passes through
the remaining search terms untouched, with the call counter unchanged. -/
theorem search_early_exit_witness :
    search_loop (fun _ => []) 1 ["Hong Kong documentary", "Hong Kong travel vlog"]
        ⟨[⟨"a", "t", "u", 0, ""⟩, ⟨"b", "t", "u", 0, ""⟩, ⟨"c", "t", "u", 0, ""⟩],
         ["a", "b", "c"], 5⟩ =
      ⟨[⟨"a", "t", "u", 0, ""⟩, ⟨"b", "t", "u", 0, ""⟩, ⟨"c", "t", "u", 0, ""⟩],
       ["a", "b", "c"], 5⟩ :=
  search_early_exit (fun _ => []) 1 _ _ (by decide)

/-- C9: the extractor keeps exactly the stripped lines that are not empty,
not the WEBVTT header, contain no timestamp arrow and are not pure digits,
in their original order, joined by newlines; decoding tries the candidate
encodings in order and returns the first success. -/
theorem subtitle_text_extraction :
    (∀ lines : List String,
      vtt_to_text lines =
        String.intercalate "\n"
          ((lines.map pyStrip).filter (fun l => !(dropped_stripped l)))) ∧
    (∀ (k : Nat) (c : String) (rest : List (Option String)),
      try_encodings (List.replicate k Option.none ++ some c :: rest) = some c) := by
  constructor
  · have hkeep : ∀ lines : List String,
        vtt_keep_lines lines = (lines.map pyStrip).filter (fun l => !(dropped_stripped l)) := by
      intro lines
      induction lines with
      | nil => rfl
      | cons line rest ih =>
        simp only [vtt_keep_lines, List.map_cons, List.filter_cons]
        cases h1 : ((pyStrip line).data.isEmpty || decide (pyStrip line = "WEBVTT")
            || pySubstr "-->".data (pyStrip line).data) with
        | true => simp [dropped_stripped, h1, ih]
        | false =>
          cases h2 : pyIsDigit (pyStrip line) with
          | true => simp [dropped_stripped, h1, h2, ih]
          | false => simp [dropped_stripped, h1, h2, ih]
    intro lines
    unfold vtt_to_text
    rw [hkeep]
  · intro k c rest
    induction k with
    | zero => rfl
    | succ n ih => simpa [List.replicate_succ, try_encodings] using ih

/-! ## Helper lemmas for parse_duration totality -/

theorem searchMins_none_of_no_digit :
    ∀ cs : List Char, (∀ c ∈ cs, c.isDigit = false) → searchMins cs = Option.none := by
  intro cs
  induction cs with
  | nil => intro _; rfl
  | cons c rest ih =>
    intro h
    have hc : c.isDigit = false := h c (List.mem_cons_self c rest)
    have hrest := ih (fun x hx => h x (List.mem_cons_of_mem c hx))
    simp [searchMins, matchMinsAt, List.takeWhile_cons, hc, hrest]

theorem searchTime_none_of_no_digit :
    ∀ cs : List Char, (∀ c ∈ cs, c.isDigit = false) → searchTime cs = Option.none := by
  intro cs
  induction cs with
  | nil => intro _; rfl
  | cons c rest ih =>
    intro h
    have hc : c.isDigit = false := h c (List.mem_cons_self c rest)
    have hrest := ih (fun x hx => h x (List.mem_cons_of_mem c hx))
    simp [searchTime, matchTimeAt, List.takeWhile_cons, hc, hrest]

/-- C10: `parse_duration` is total over every runtime type of the cell:
`None` gives 0, a datetime gives its clock-time in seconds, a timedelta its
total seconds, a number its integer part, a digit-free string 0, a string
whose leftmost match is the mins pattern `N*60`, a string matching only
`M:S` gives `M*60+S`, and a string matching neither pattern gives 0. -/
theorem parse_duration_total :
    parse_duration DurationCell.null = 0 ∧
    (∀ h m s : Nat, parse_duration (.datetime h m s) = h * 3600 + m * 60 + s) ∧
    (∀ t : Int, parse_duration (.timedelta t) = t) ∧
    (∀ n : Int, parse_duration (.num n) = n) ∧
    (∀ s : String, (∀ c ∈ s.data, c.isDigit = false) → parse_duration (.str s) = 0) ∧
    (∀ (s : String) (n : Nat), searchMins s.data = some n →
      parse_duration (.str s) = (n : Int) * 60) ∧
    (∀ (s : String) (m sec : Nat), searchMins s.data = Option.none →
      searchTime s.data = some (m, sec) →
      parse_duration (.str s) = (m : Int) * 60 + sec) ∧
    (∀ s : String, searchMins s.data = Option.none → searchTime s.data = Option.none →
      parse_duration (.str s) = 0) := by
  refine ⟨rfl, fun _ _ _ => rfl, fun _ => rfl, fun _ => rfl, ?_, ?_, ?_, ?_⟩
  · intro s h
    simp [parse_duration, searchMins_none_of_no_digit s.data h,
      searchTime_none_of_no_digit s.data h]
  · intro s n h
    simp [parse_duration, h]
  · intro s m sec h1 h2
    simp [parse_duration, h1, h2]
  · intro s h1 h2
    simp [parse_duration, h1, h2]

/-- C10 witness: a digit-free string parses to 0, "84mins" to 5040 s and
"20:35" to 1235 s. -/
theorem parse_duration_total_witness :
    parse_duration (DurationCell.str "no digits here") = 0 ∧
    parse_duration (DurationCell.str "84mins") = 5040 ∧
    parse_duration (DurationCell.str "20:35") = 1235 := by
  refine ⟨parse_duration_total.2.2.2.2.1 "no digits here" (by decide), ?_, ?_⟩
  · have h := parse_duration_total.2.2.2.2.2.1 "84mins" 84 (by decide)
    rw [h]; norm_num
  · have h := parse_duration_total.2.2.2.2.2.2.1 "20:35" 20 35 (by decide) (by decide)
    rw [h]; norm_num

end VideoRetrieval
